import Mathlib

/-!
Shallow embedding of the `just-one` single-instance process supervisor.

The repository's core lives in `src/lib/pid.ts` (registry: one `.pid` file
per logical name), `src/lib/process.ts` (liveness, identity verification and
the SIGTERM → grace wait → SIGKILL → force wait termination engine) and the
CLI entrypoint (`handleKill`, `handleRun`, `handleStatus`, `handleWait`, ...).

Modelling conventions:
* OS facts are an explicit `Oracle`: `aliveAt pid t` is what `isProcessAlive`
  would observe at model time `t` (milliseconds), and `startTime pid` is the
  `pidusage`-derived start timestamp (`none` when `pidusage` throws, i.e. the
  process does not exist or its stats are unavailable).
* Time is discrete: each `setTimeout`-sleep advances the clock by exactly the
  sleep interval; the checks themselves take zero time.  Polling loops are
  written with an explicit fuel argument large enough that the fuel never
  runs out before the loop's own exit condition fires; the fuel-exhausted
  branch returns the same value as the loop's timeout branch.
* Signal deliveries are recorded as events `(signal, time)`.  Delivery is
  modelled as succeeding whenever the target is observed alive (the code
  ignores delivery failures for the purpose of state transitions).
* The Unix branch of the platform split is the one embedded (the graceful
  request is the SIGTERM equivalent); PIDs are `Int` so that zero, negative
  and out-of-range values are representable.
* The registry entry for one name is a `FileState`: the optional text content
  of the `.pid` file and the optional `mtimeMs` reported by `statSync`.
-/

abbrev DEFAULT_GRACE_PERIOD_MS : Nat := 5000

abbrev FORCE_KILL_WAIT_MS : Nat := 2000

abbrev CHECK_INTERVAL_MS : Nat := 100

abbrev START_TIME_TOLERANCE_MS : Nat := 5000

abbrev WAIT_POLL_INTERVAL_MS : Nat := 500

/-- The OS as seen by the supervisor: liveness per model time, and the
`pidusage`-reported start time (`stats.timestamp - stats.elapsed`). -/
structure Oracle where
  aliveAt : Int → Nat → Bool
  startTime : Int → Option Int

/-- `isValidPid` from `process.ts`: a safe positive integer PID
(`Number.isInteger(pid) && pid > 0 && pid <= 4194304`); integrality is
inherent to `Int`. -/
def isValidPid (pid : Int) : Bool :=
  decide (0 < pid ∧ pid ≤ 4194304)

/-- `getProcessStartTime` from `process.ts`: `null` for an invalid PID,
otherwise the `pidusage`-derived start timestamp (`null` when the lookup
throws, i.e. no such process / stats unavailable). -/
def getProcessStartTime (o : Oracle) (pid : Int) : Option Int :=
  if isValidPid pid then o.startTime pid else none

/-- `isSameProcessInstance` from `process.ts`: true iff the start time can be
determined and `|startTime - pidFileMtimeMs| <= START_TIME_TOLERANCE_MS`. -/
def isSameProcessInstance (o : Oracle) (pid : Int) (pidFileMtimeMs : Int) : Bool :=
  match getProcessStartTime o pid with
  | none => false
  | some s => decide ((s - pidFileMtimeMs).natAbs ≤ START_TIME_TOLERANCE_MS)

/-- `isProcessAlive` from `process.ts`: false for an invalid PID, otherwise
what the OS liveness probe (`kill -0` / `tasklist`) reports at time `t`. -/
def isProcessAlive (o : Oracle) (pid : Int) (t : Nat) : Bool :=
  isValidPid pid && o.aliveAt pid t

/-- A recorded signal delivery: which signal, and the model time it was sent. -/
inductive Sig where
  | sigterm : Sig
  | sigkill : Sig
deriving DecidableEq, Repr

abbrev Event := Sig × Nat

/-- `killProcess` from `process.ts`: rejects invalid PIDs and dead processes
without touching the OS; otherwise delivers the graceful termination request
(SIGTERM to the process group / process) and reports success. -/
def killProcess (o : Oracle) (pid : Int) (t : Nat) : Bool × List Event :=
  if isValidPid pid && isProcessAlive o pid t then
    (true, [(Sig.sigterm, t)])
  else
    (false, [])

/-- `forceKillProcess` from `process.ts`: rejects invalid PIDs and dead
processes without touching the OS; otherwise delivers SIGKILL. -/
def forceKillProcess (o : Oracle) (pid : Int) (t : Nat) : Bool × List Event :=
  if isValidPid pid && isProcessAlive o pid t then
    (true, [(Sig.sigkill, t)])
  else
    (false, [])

/-- The polling loop of `waitForProcessToDie`:
`while (Date.now() - startTime < timeoutMs) { if (!alive) return true; sleep 100 }
return !alive`; the literal `100` is `CHECK_INTERVAL_MS`.  `fuel` bounds the
number of iterations; the fuel-exhausted branch returns exactly the loop's
post-timeout result, and the entry point below supplies fuel that only runs
out once `now - t0 ≥ timeoutMs`. -/
def waitLoop (alive : Nat → Bool) (t0 timeoutMs : Nat) : Nat → Nat → Bool × Nat
  | 0, now => (!(alive now), now)
  | fuel + 1, now =>
    if now - t0 < timeoutMs then
      if !(alive now) then (true, now)
      else waitLoop alive t0 timeoutMs fuel (now + 100)
    else (!(alive now), now)

/-- `waitForProcessToDie` from `process.ts`: poll liveness every
`CHECK_INTERVAL_MS` until death or until `timeoutMs` has elapsed; returns
whether the process was observed dead, together with the time of the final
observation. -/
def waitForProcessToDie (alive : Nat → Bool) (t0 timeoutMs : Nat) : Bool × Nat :=
  waitLoop alive t0 timeoutMs (timeoutMs / 100 + 1) t0

/-- `terminateProcess` from `process.ts`: validate the PID, return `true`
immediately if already dead, otherwise SIGTERM → grace wait → SIGKILL →
2000 ms force wait.  Returns the outcome (`true` = dead) and the signal
events delivered. -/
def terminateProcess (o : Oracle) (pid : Int) (t0 : Nat) (gracePeriodMs : Option Nat) :
    Bool × List Event :=
  let grace := gracePeriodMs.getD DEFAULT_GRACE_PERIOD_MS
  if !(isValidPid pid) then (false, [])
  else if !(isProcessAlive o pid t0) then (true, [])
  else
    let k1 := killProcess o pid t0
    let w1 := waitForProcessToDie (fun t => isProcessAlive o pid t) t0 grace
    if w1.1 then (true, k1.2)
    else
      let k2 := forceKillProcess o pid w1.2
      let w2 := waitForProcessToDie (fun t => isProcessAlive o pid t) w1.2 FORCE_KILL_WAIT_MS
      (w2.1, k1.2 ++ k2.2)

/-- Accumulating digits of a decimal numeral, as JS `parseInt` does. -/
def digitsVal (ds : List Char) : Nat :=
  ds.foldl (fun acc c => 10 * acc + (c.toNat - 48)) 0

/-- JS `parseInt(s, 10)` on an already-trimmed string: optional sign, then the
maximal leading run of decimal digits (trailing garbage ignored); `none`
models `NaN` (no digits). -/
def parseIntJs (s : String) : Option Int :=
  let rest : Bool × List Char :=
    match s.data with
    | '-' :: cs => (true, cs)
    | '+' :: cs => (false, cs)
    | cs => (false, cs)
  let ds := rest.2.takeWhile Char.isDigit
  if ds.isEmpty then none
  else if rest.1 then some (-(digitsVal ds : Int))
  else some ((digitsVal ds : Int))

/-- JS `String.prototype.trim`: strip leading and trailing whitespace
(modelled over the character list so it evaluates in the kernel). -/
def trimChars (cs : List Char) : List Char :=
  ((cs.dropWhile Char.isWhitespace).reverse.dropWhile Char.isWhitespace).reverse

/-- The registry entry for one logical name: the optional text content of its
`.pid` file (`none` = absent or unreadable) and the optional `statSync`
modification time. -/
structure FileState where
  content : Option String
  mtimeMs : Option Int
deriving DecidableEq

/-- `readPid` from `pid.ts`: `null` when the file is absent/unreadable, else
`parseInt(content.trim(), 10)`, rejecting `NaN` and values `<= 0`. -/
def readPid (content : Option String) : Option Int :=
  match content with
  | none => none
  | some c =>
    match parseIntJs (String.mk (trimChars c.data)) with
    | none => none
    | some pid => if pid ≤ 0 then none else some pid

/-- `deletePid` from `pid.ts`: unlinks the `.pid` file (content and mtime are
both gone afterwards). -/
def deletePid (_fs : FileState) : FileState :=
  { content := none, mtimeMs := none }

/-- `writePid` from `pid.ts`: writes the decimal PID; the file's new
modification time is the write time `wt`. -/
def writePid (pid : Int) (wt : Int) : FileState :=
  { content := some (toString pid), mtimeMs := some wt }

/-- Abstract user-visible messages of the CLI handlers. -/
inductive Msg where
  | noProcess : Msg
  | differentProcess : Msg
  | notRunningCleanup : Msg
  | killing : Msg
  | killed : Msg
  | failedKill : Msg
  | notTracked : Msg
  | running : Msg
  | stoppedDifferent : Msg
  | stopped : Msg
  | noCommand : Msg
  | alreadyRunning : Msg
  | warnStillRunning : Msg
  | staleSkip : Msg
  | spawnFailed : Msg
  | started : Msg
deriving DecidableEq, Repr

structure KillResult where
  exit : Nat
  msgs : List Msg
  fs : FileState
  events : List Event
deriving DecidableEq

/-- `handleKill` from the CLI entrypoint: no record → no-op success; record
failing identity verification → delete it without signalling; verified →
run the termination engine (grace given in seconds), deleting the record on
success and leaving it in place on failure. -/
def handleKill (o : Oracle) (fs : FileState) (t0 : Nat) (graceSec : Option Nat) : KillResult :=
  match readPid fs.content with
  | none => ⟨0, [Msg.noProcess], fs, []⟩
  | some pid =>
    let isSameInstance :=
      match fs.mtimeMs with
      | none => false
      | some m => isSameProcessInstance o pid m
    if !isSameInstance then
      let m := if isProcessAlive o pid t0 then Msg.differentProcess else Msg.notRunningCleanup
      ⟨0, [m], deletePid fs, []⟩
    else
      let r := terminateProcess o pid t0 (graceSec.map (fun g => g * 1000))
      if r.1 then ⟨0, [Msg.killing, Msg.killed], deletePid fs, r.2⟩
      else ⟨1, [Msg.killing, Msg.failedKill], fs, r.2⟩

structure StatusResult where
  exit : Nat
  msgs : List Msg
  fs : FileState
deriving DecidableEq

/-- `handleStatus` from the CLI entrypoint: read and verify only.  The
returned `FileState` is the registry entry after the call (the handler makes
no mutating call, so it is threaded through unchanged). -/
def handleStatus (o : Oracle) (fs : FileState) (t0 : Nat) : StatusResult :=
  match readPid fs.content with
  | none => ⟨1, [Msg.notTracked], fs⟩
  | some pid =>
    let isSameInstance :=
      match fs.mtimeMs with
      | none => false
      | some m => isSameProcessInstance o pid m
    if isSameInstance then ⟨0, [Msg.running], fs⟩
    else if isProcessAlive o pid t0 then ⟨1, [Msg.stoppedDifferent], fs⟩
    else ⟨1, [Msg.stopped], fs⟩

structure RunResult where
  exit : Nat
  fs : FileState
  events : List Event
  spawned : Option Int
  msgs : List Msg
deriving DecidableEq

/-- The spawn-and-record tail of `handleRun`: `spawnPid = none` models a spawn
failure (caught, exit 1, no record written); otherwise the new PID is written
with write time `wt`.  Daemon and foreground mode differ only in stdio/log
routing, outside this model. -/
def spawnPhase (fs1 : FileState) (evs : List Event) (warn : List Msg)
    (spawnPid : Option Int) (wt : Int) : RunResult :=
  match spawnPid with
  | none => ⟨1, fs1, evs, none, warn ++ [Msg.spawnFailed]⟩
  | some p => ⟨0, writePid p wt, evs, some p, warn ++ [Msg.started]⟩

/-- `handleRun` from the CLI entrypoint: verify any existing record; in
ensure mode a verified record short-circuits to "already running" before any
mutation; otherwise a verified instance is terminated (best effort), a stale
one is left unsignalled, the old record is deleted, and the new process is
spawned and recorded. -/
def handleRun (o : Oracle) (fs : FileState) (t0 : Nat) (hasCommand ensure : Bool)
    (graceSec : Option Nat) (spawnPid : Option Int) (wt : Int) : RunResult :=
  if !hasCommand then ⟨1, fs, [], none, [Msg.noCommand]⟩
  else
    match readPid fs.content with
    | none => spawnPhase fs [] [] spawnPid wt
    | some pid =>
      let shouldKill :=
        match fs.mtimeMs with
        | none => false
        | some m => isSameProcessInstance o pid m
      if shouldKill && ensure then ⟨0, fs, [], none, [Msg.alreadyRunning]⟩
      else
        let step : List Event × List Msg :=
          if shouldKill then
            let r := terminateProcess o pid t0 (graceSec.map (fun g => g * 1000))
            (r.2, if r.1 then [] else [Msg.warnStillRunning])
          else if isProcessAlive o pid t0 then ([], [Msg.staleSkip])
          else ([], [])
        spawnPhase (deletePid fs) step.1 step.2 spawnPid wt

/-- The polling loop of `handleWait`:
`while (alive) { if (timeout hit) return 1; sleep 500 } return 0`.
`none` means the fuel ran out with the loop still waiting (in particular,
with no timeout and a process that never dies, every fuel returns `none`:
the code waits indefinitely). -/
def waitExitLoop (alive : Nat → Bool) (t0 : Nat) (timeoutMs : Option Nat) :
    Nat → Nat → Option Nat
  | 0, _ => none
  | fuel + 1, now =>
    if alive now then
      if (match timeoutMs with
          | some tm => decide (tm ≤ now - t0)
          | none => false) then some 1
      else waitExitLoop alive t0 timeoutMs fuel (now + 500)
    else some 0

/-- `handleWait` from the CLI entrypoint: no record → exit 1; recorded PID not
alive at the entry check → exit 1; otherwise poll liveness (never the
identity oracle) every 500 ms until death (exit 0) or until the timeout
(given in seconds) elapses (exit 1). -/
def handleWait (o : Oracle) (fs : FileState) (t0 : Nat) (timeoutSec : Option Nat)
    (fuel : Nat) : Option Nat :=
  match readPid fs.content with
  | none => some 1
  | some pid =>
    if !(isProcessAlive o pid t0) then some 1
    else
      waitExitLoop (fun t => isProcessAlive o pid t) t0
        (timeoutSec.map (fun s => s * 1000)) fuel t0

example : readPid (some "42") = some 42 := by decide
example : readPid (some " 007 ") = some 7 := by decide
example : readPid (some "-3") = none := by decide
example : readPid (some "0") = none := by decide
example : readPid (some "abc") = none := by decide
example : readPid (some "") = none := by decide
example : readPid none = none := by decide
example : readPid (some "12abc") = some 12 := by decide
example : isValidPid 4194304 = true := by decide
example : isValidPid 4194305 = false := by decide
example : isValidPid 0 = false := by decide
example : isValidPid (-7) = false := by decide


/-! ### Properties of the termination engine's polling loop -/

/-- The outcome of the polling loop is exactly the negated liveness at its
final observation time. -/
theorem waitLoop_fst (a : Nat → Bool) (t0 T : Nat) :
    ∀ fuel now, (waitLoop a t0 T fuel now).1 = !(a (waitLoop a t0 T fuel now).2) := by
  intro fuel
  induction fuel with
  | zero => intro now; simp [waitLoop]
  | succ n ih =>
    intro now
    by_cases hcond : now - t0 < T
    · cases ha : a now with
      | false => simp [waitLoop, hcond, ha]
      | true => simpa [waitLoop, hcond, ha] using ih (now + 100)
    · simp [waitLoop, hcond]

/-- The polling loop's final observation is never earlier than its entry. -/
theorem waitLoop_le (a : Nat → Bool) (t0 T : Nat) :
    ∀ fuel now, now ≤ (waitLoop a t0 T fuel now).2 := by
  intro fuel
  induction fuel with
  | zero => intro now; simp [waitLoop]
  | succ n ih =>
    intro now
    by_cases hcond : now - t0 < T
    · cases ha : a now with
      | false => simp [waitLoop, hcond, ha]
      | true =>
        have h2 := ih (now + 100)
        simp only [waitLoop, hcond, if_true, ha, Bool.not_true, Bool.false_eq_true, if_false]
        omega
    · simp [waitLoop, hcond]

/-- With adequate fuel, when the loop reports the process still alive, the
full timeout has elapsed at its final observation. -/
theorem waitLoop_timeout (a : Nat → Bool) (t0 T : Nat) :
    ∀ fuel now, t0 ≤ now → T ≤ (now - t0) + 100 * fuel →
      (waitLoop a t0 T fuel now).1 = false →
      T ≤ (waitLoop a t0 T fuel now).2 - t0 := by
  intro fuel
  induction fuel with
  | zero =>
    intro now h1 h2 hres
    simp only [waitLoop]
    omega
  | succ n ih =>
    intro now h1 h2 hres
    by_cases hcond : now - t0 < T
    · cases ha : a now with
      | false => simp [waitLoop, hcond, ha] at hres
      | true =>
        have hgoal := ih (now + 100) (by omega) (by omega)
          (by simpa [waitLoop, hcond, ha] using hres)
        simpa [waitLoop, hcond, ha] using hgoal
    · simp [waitLoop, hcond]
      omega

/-- With adequate fuel, the loop reports death exactly when one of its
observation points (every 100 ms from the entry time, up to and including the
first one at or past the timeout) sees the process dead. -/
theorem waitLoop_true_iff (a : Nat → Bool) (t0 T : Nat) :
    ∀ fuel j, T ≤ 100 * (j + fuel) →
      ((waitLoop a t0 T fuel (t0 + 100 * j)).1 = true ↔
        ∃ k, j ≤ k ∧ k ≤ max j ((T + 99) / 100) ∧ a (t0 + 100 * k) = false) := by
  intro fuel
  induction fuel with
  | zero =>
    intro j hfuel
    have hc : (T + 99) / 100 ≤ j := by omega
    rw [max_eq_left hc]
    simp only [waitLoop, Bool.not_eq_true']
    constructor
    · intro h; exact ⟨j, le_refl j, le_refl j, h⟩
    · rintro ⟨k, hk1, hk2, hk3⟩
      have hkj : k = j := le_antisymm hk2 hk1
      subst hkj; exact hk3
  | succ n ih =>
    intro j hfuel
    have hsub : t0 + 100 * j - t0 = 100 * j := by omega
    by_cases hcond : 100 * j < T
    · have hceil : j + 1 ≤ (T + 99) / 100 := by omega
      cases ha : a (t0 + 100 * j) with
      | false =>
        rw [max_eq_right (by omega : j ≤ (T + 99) / 100)]
        have hres : (waitLoop a t0 T (n + 1) (t0 + 100 * j)).1 = true := by
          simp [waitLoop, hsub, hcond, ha]
        rw [hres]
        exact iff_of_true rfl ⟨j, le_refl j, by omega, ha⟩
      | true =>
        have harg : t0 + 100 * j + 100 = t0 + 100 * (j + 1) := by ring
        have hstep : waitLoop a t0 T (n + 1) (t0 + 100 * j) =
            waitLoop a t0 T n (t0 + 100 * (j + 1)) := by
          simp [waitLoop, hsub, hcond, ha, harg]
        have hih := ih (j + 1) (by omega)
        rw [max_eq_right (by omega : j + 1 ≤ (T + 99) / 100)] at hih
        rw [max_eq_right (by omega : j ≤ (T + 99) / 100)]
        rw [hstep, hih]
        constructor
        · rintro ⟨k, hk1, hk2, hk3⟩; exact ⟨k, by omega, hk2, hk3⟩
        · rintro ⟨k, hk1, hk2, hk3⟩
          refine ⟨k, ?_, hk2, hk3⟩
          rcases Nat.eq_or_lt_of_le hk1 with heq | hlt
          · subst heq; rw [ha] at hk3; cases hk3
          · omega
    · have hc : (T + 99) / 100 ≤ j := by omega
      rw [max_eq_left hc]
      have hres : waitLoop a t0 T (n + 1) (t0 + 100 * j) =
          (!(a (t0 + 100 * j)), t0 + 100 * j) := by
        simp [waitLoop, hsub, hcond]
      rw [hres]
      simp only [Bool.not_eq_true']
      constructor
      · intro h; exact ⟨j, le_refl j, le_refl j, h⟩
      · rintro ⟨k, hk1, hk2, hk3⟩
        have hkj : k = j := le_antisymm hk2 hk1
        subst hkj; exact hk3

/-- Entry-point corollary of `waitLoop_true_iff`: `waitForProcessToDie`
observes death exactly when some poll in the window does. -/
theorem waitForProcessToDie_true_iff (a : Nat → Bool) (t0 T : Nat) :
    (waitForProcessToDie a t0 T).1 = true ↔
      ∃ k, k ≤ (T + 99) / 100 ∧ a (t0 + 100 * k) = false := by
  have h := waitLoop_true_iff a t0 T (T / 100 + 1) 0 (by omega)
  rw [max_eq_right (Nat.zero_le _)] at h
  simp only [Nat.mul_zero, Nat.add_zero] at h
  unfold waitForProcessToDie
  rw [h]
  constructor
  · rintro ⟨k, _, hk2, hk3⟩; exact ⟨k, hk2, hk3⟩
  · rintro ⟨k, hk2, hk3⟩; exact ⟨k, Nat.zero_le k, hk2, hk3⟩

/-- Entry-point corollary: when `waitForProcessToDie` reports the process
still alive, the timeout has elapsed at the final observation, the final
observation is not before the entry, and the process was observed alive
there. -/
theorem waitForProcessToDie_false (a : Nat → Bool) (t0 T : Nat)
    (h : (waitForProcessToDie a t0 T).1 = false) :
    T ≤ (waitForProcessToDie a t0 T).2 - t0 ∧ t0 ≤ (waitForProcessToDie a t0 T).2 ∧
      a (waitForProcessToDie a t0 T).2 = true := by
  refine ⟨?_, ?_, ?_⟩
  · exact waitLoop_timeout a t0 T (T / 100 + 1) t0 (le_refl t0) (by omega) h
  · exact waitLoop_le a t0 T (T / 100 + 1) t0
  · have hfst := waitLoop_fst a t0 T (T / 100 + 1) t0
    unfold waitForProcessToDie at h ⊢
    rw [h] at hfst
    cases hx : a (waitLoop a t0 T (T / 100 + 1) t0).2 with
    | false => rw [hx] at hfst; simp at hfst
    | true => rfl

/-! ### Concrete oracles used by the witnesses -/

/-- An OS in which the probed process is always alive and reports start time
`s`. -/
def oracleLive (s : Int) : Oracle :=
  ⟨fun _ _ => true, fun _ => some s⟩

/-- An OS in which the probed process is never alive and has no stats. -/
def oracleGone : Oracle :=
  ⟨fun _ _ => false, fun _ => none⟩

/-! ### C1: identity verification -/

/-- C1: `isSameProcessInstance(p, m)` is true exactly when the start time of
`p` can be determined and differs from `m` by at most the 5000 ms tolerance;
a difference of exactly 5000 ms verifies, any larger difference does not, and
an undeterminable start time (process not running included) yields false. -/
theorem claim_C1 (o : Oracle) (pid mt : Int) :
    (isSameProcessInstance o pid mt = true ↔
      ∃ s, getProcessStartTime o pid = some s ∧
        (s - mt).natAbs ≤ START_TIME_TOLERANCE_MS) ∧
    (∀ s, getProcessStartTime o pid = some s →
      (s - mt).natAbs = START_TIME_TOLERANCE_MS → isSameProcessInstance o pid mt = true) ∧
    (∀ s, getProcessStartTime o pid = some s →
      START_TIME_TOLERANCE_MS < (s - mt).natAbs → isSameProcessInstance o pid mt = false) ∧
    (getProcessStartTime o pid = none → isSameProcessInstance o pid mt = false) := by
  refine ⟨⟨?_, ?_⟩, ?_, ?_, ?_⟩
  · intro h
    unfold isSameProcessInstance at h
    cases hs : getProcessStartTime o pid with
    | none => rw [hs] at h; simp at h
    | some s => rw [hs] at h; exact ⟨s, rfl, by simpa using h⟩
  · rintro ⟨s, hs, hle⟩
    unfold isSameProcessInstance
    rw [hs]
    simpa using hle
  · intro s hs heq
    unfold isSameProcessInstance
    rw [hs]
    simp [heq]
  · intro s hs hgt
    unfold isSameProcessInstance
    rw [hs]
    simp
    omega
  · intro hs
    unfold isSameProcessInstance
    rw [hs]

/-- Witness for C1: at the documented boundary, a 5000 ms difference verifies
and a 5001 ms difference does not. -/
theorem claim_C1_witness :
    isSameProcessInstance (oracleLive 6000) 42 1000 = true ∧
    isSameProcessInstance (oracleLive 6001) 42 1000 = false :=
  ⟨(claim_C1 (oracleLive 6000) 42 1000).2.1 6000 (by decide) (by decide),
   (claim_C1 (oracleLive 6001) 42 1000).2.2.1 6001 (by decide) (by decide)⟩

/-! ### C4: PID validation guards every process operation -/

/-- C4: for any PID outside the sane range (non-positive or above 4194304),
`isProcessAlive`, `killProcess`, `forceKillProcess` and `terminateProcess`
all reject upfront: no signal event is produced and the result is the
validation-failure value. -/
theorem claim_C4 (o : Oracle) (pid : Int) (t : Nat) (g : Option Nat)
    (h : isValidPid pid = false) :
    isProcessAlive o pid t = false ∧
    killProcess o pid t = (false, []) ∧
    forceKillProcess o pid t = (false, []) ∧
    terminateProcess o pid t g = (false, []) := by
  refine ⟨?_, ?_, ?_, ?_⟩ <;>
    simp [isProcessAlive, killProcess, forceKillProcess, terminateProcess, h]

/-- Witness for C4 at PID 0. -/
theorem claim_C4_witness :
    isProcessAlive oracleGone 0 3 = false ∧
    killProcess oracleGone 0 3 = (false, []) ∧
    forceKillProcess oracleGone 0 3 = (false, []) ∧
    terminateProcess oracleGone 0 3 (some 100) = (false, []) :=
  claim_C4 oracleGone 0 3 (some 100) (by decide)

/-! ### C2: the termination engine's escalation ordering -/

/-- C2: for a valid PID, the grace period defaults to 5000 ms; an
already-dead process yields `Dead` immediately with no signal; otherwise the
graceful request is sent first at the entry time, and either the process is
observed dead within the grace window (`Dead`, no forceful request), or the
forceful request is sent at a time at least `g` ms after entry with the
process still observed alive, after which the outcome is `Dead` exactly when
one of the polls in the 2000 ms force window observes the process dead. -/
theorem claim_C2 (o : Oracle) (pid : Int) (t0 g : Nat) (hv : isValidPid pid = true) :
    terminateProcess o pid t0 none = terminateProcess o pid t0 (some DEFAULT_GRACE_PERIOD_MS) ∧
    (o.aliveAt pid t0 = false → terminateProcess o pid t0 (some g) = (true, [])) ∧
    (o.aliveAt pid t0 = true →
      ((terminateProcess o pid t0 (some g)).2 = [(Sig.sigterm, t0)] ∧
        (terminateProcess o pid t0 (some g)).1 = true) ∨
      (∃ t1, t0 + g ≤ t1 ∧ o.aliveAt pid t1 = true ∧
        (terminateProcess o pid t0 (some g)).2 = [(Sig.sigterm, t0), (Sig.sigkill, t1)] ∧
        ((terminateProcess o pid t0 (some g)).1 = true ↔
          ∃ k, k ≤ 20 ∧ o.aliveAt pid (t1 + 100 * k) = false))) := by
  refine ⟨rfl, ?_, ?_⟩
  · intro hdead
    simp [terminateProcess, isProcessAlive, hv, hdead]
  · intro halive
    have hAlive0 : isProcessAlive o pid t0 = true := by
      simp [isProcessAlive, hv, halive]
    by_cases hw1 : (waitForProcessToDie (fun t => isProcessAlive o pid t) t0 g).1 = true
    · left
      constructor <;> simp [terminateProcess, killProcess, hv, hAlive0, hw1]
    · right
      have hw1f : (waitForProcessToDie (fun t => isProcessAlive o pid t) t0 g).1 = false := by
        cases hx : (waitForProcessToDie (fun t => isProcessAlive o pid t) t0 g).1 with
        | false => rfl
        | true => exact absurd hx hw1
      obtain ⟨hT, hle, halive1⟩ :=
        waitForProcessToDie_false (fun t => isProcessAlive o pid t) t0 g hw1f
      refine ⟨(waitForProcessToDie (fun t => isProcessAlive o pid t) t0 g).2,
        by omega, ?_, ?_, ?_⟩
      · simpa [isProcessAlive, hv] using halive1
      · simp [terminateProcess, killProcess, forceKillProcess, hv, hAlive0, hw1f, halive1]
      · have hiff := waitForProcessToDie_true_iff (fun t => isProcessAlive o pid t)
          (waitForProcessToDie (fun t => isProcessAlive o pid t) t0 g).2 2000
        have hterm1 : (terminateProcess o pid t0 (some g)).1 =
            (waitForProcessToDie (fun t => isProcessAlive o pid t)
              (waitForProcessToDie (fun t => isProcessAlive o pid t) t0 g).2 2000).1 := by
          simp [terminateProcess, killProcess, forceKillProcess, hv, hAlive0, hw1f, halive1]
        rw [hterm1, hiff]
        constructor
        · rintro ⟨k, hk1, hk2⟩
          refine ⟨k, by omega, ?_⟩
          simpa [isProcessAlive, hv] using hk2
        · rintro ⟨k, hk1, hk2⟩
          refine ⟨k, by omega, ?_⟩
          simpa [isProcessAlive, hv] using hk2

/-- Witness for C2: an already-dead process is reported `Dead` with no signal
sent. -/
theorem claim_C2_witness :
    terminateProcess oracleGone 42 0 (some 7) = (true, []) :=
  (claim_C2 oracleGone 42 0 7 (by decide)).2.1 rfl

/-! ### Helper: identity verification with a known start time -/

/-- When the start time is determinable, verification is exactly the
tolerance comparison. -/
theorem isSame_eq_of_startTime (o : Oracle) (pid mt s : Int)
    (hs : getProcessStartTime o pid = some s) :
    isSameProcessInstance o pid mt =
      decide ((s - mt).natAbs ≤ START_TIME_TOLERANCE_MS) := by
  unfold isSameProcessInstance
  rw [hs]

/-- A PID whose start time is determinable passed validation. -/
theorem isValidPid_of_startTime (o : Oracle) (pid s : Int)
    (hs : getProcessStartTime o pid = some s) : isValidPid pid = true := by
  cases hvv : isValidPid pid with
  | true => rfl
  | false =>
    unfold getProcessStartTime at hs
    rw [hvv] at hs
    simp at hs

/-! ### C3: a stale record is never signalled -/

/-- C3: when the recorded PID is alive but its start time differs from the
record time by more than the tolerance, `kill` sends no signal, deletes the
record, reports the PID as belonging to a different process, and succeeds. -/
theorem claim_C3 (o : Oracle) (fs : FileState) (t0 : Nat) (graceSec : Option Nat)
    (pid mt s : Int)
    (hp : readPid fs.content = some pid) (hm : fs.mtimeMs = some mt)
    (ha : o.aliveAt pid t0 = true)
    (hs : getProcessStartTime o pid = some s)
    (hd : START_TIME_TOLERANCE_MS < (s - mt).natAbs) :
    handleKill o fs t0 graceSec = ⟨0, [Msg.differentProcess], ⟨none, none⟩, []⟩ := by
  have hv : isValidPid pid = true := isValidPid_of_startTime o pid s hs
  have hstale : isSameProcessInstance o pid mt = false := by
    rw [isSame_eq_of_startTime o pid mt s hs]
    simp
    omega
  have halive : isProcessAlive o pid t0 = true := by
    simp [isProcessAlive, hv, ha]
  simp [handleKill, hp, hm, hstale, halive, deletePid]

/-- Witness for C3: a live PID recorded at mtime 0 with actual start time
99999 is cleaned up without a signal. -/
theorem claim_C3_witness :
    handleKill (oracleLive 99999) ⟨some "42", some 0⟩ 0 none =
      ⟨0, [Msg.differentProcess], ⟨none, none⟩, []⟩ :=
  claim_C3 (oracleLive 99999) ⟨some "42", some 0⟩ 0 none 42 0 99999
    (by decide) rfl rfl (by decide) (by decide)

/-! ### C5: termination failure leaves the record in place -/

/-- C5: when the record is verified and the termination engine exhausts its
escalation with the process still alive, `kill` exits non-zero and the
registry record is left untouched for a later retry. -/
theorem claim_C5 (o : Oracle) (fs : FileState) (t0 : Nat) (graceSec : Option Nat)
    (pid mt : Int)
    (hp : readPid fs.content = some pid) (hm : fs.mtimeMs = some mt)
    (hsame : isSameProcessInstance o pid mt = true)
    (hfail : (terminateProcess o pid t0 (graceSec.map (fun g => g * 1000))).1 = false) :
    (handleKill o fs t0 graceSec).exit = 1 ∧
    (handleKill o fs t0 graceSec).fs = fs ∧
    (handleKill o fs t0 graceSec).msgs = [Msg.killing, Msg.failedKill] := by
  refine ⟨?_, ?_, ?_⟩ <;> simp [handleKill, hp, hm, hsame, hfail]

/-- Witness for C5: a verified but unkillable process (always alive) leaves
the record `42` in place and exits 1. -/
theorem claim_C5_witness :
    (handleKill (oracleLive 0) ⟨some "42", some 0⟩ 0 (some 1)).exit = 1 ∧
    (handleKill (oracleLive 0) ⟨some "42", some 0⟩ 0 (some 1)).fs = ⟨some "42", some 0⟩ ∧
    (handleKill (oracleLive 0) ⟨some "42", some 0⟩ 0 (some 1)).msgs =
      [Msg.killing, Msg.failedKill] :=
  claim_C5 (oracleLive 0) ⟨some "42", some 0⟩ 0 (some 1) 42 0
    (by decide) rfl (by decide) (by decide)

/-! ### C6: ensure-mode start is a no-op on a verified record -/

/-- C6: with a verified record and `ensureOnly` set, `start` returns exit 0,
sends no signal, spawns nothing, and leaves the record (hence the recorded
PID) unchanged. -/
theorem claim_C6 (o : Oracle) (fs : FileState) (t0 : Nat) (graceSec : Option Nat)
    (spawnPid : Option Int) (wt : Int) (pid mt : Int)
    (hp : readPid fs.content = some pid) (hm : fs.mtimeMs = some mt)
    (hsame : isSameProcessInstance o pid mt = true) :
    handleRun o fs t0 true true graceSec spawnPid wt =
      ⟨0, fs, [], none, [Msg.alreadyRunning]⟩ ∧
    readPid (handleRun o fs t0 true true graceSec spawnPid wt).fs.content = some pid := by
  have h1 : handleRun o fs t0 true true graceSec spawnPid wt =
      ⟨0, fs, [], none, [Msg.alreadyRunning]⟩ := by
    simp [handleRun, hp, hm, hsame]
  refine ⟨h1, ?_⟩
  rw [h1]
  exact hp

/-- Witness for C6 on record `42` verified by a matching start time. -/
theorem claim_C6_witness :
    handleRun (oracleLive 0) ⟨some "42", some 0⟩ 0 true true none none 0 =
      ⟨0, ⟨some "42", some 0⟩, [], none, [Msg.alreadyRunning]⟩ ∧
    readPid (handleRun (oracleLive 0) ⟨some "42", some 0⟩ 0 true true none none 0).fs.content =
      some 42 :=
  claim_C6 (oracleLive 0) ⟨some "42", some 0⟩ 0 none none 0 42 0
    (by decide) rfl (by decide)

/-! ### C7: kill with no record is an idempotent no-op success -/

/-- C7: `kill` on a name with no record succeeds with "nothing to kill",
mutates nothing and sends nothing; run twice in a row the outcome is the
same both times. -/
theorem claim_C7 (o : Oracle) (fs : FileState) (t0 : Nat) (graceSec : Option Nat)
    (h : readPid fs.content = none) :
    handleKill o fs t0 graceSec = ⟨0, [Msg.noProcess], fs, []⟩ ∧
    handleKill o (handleKill o fs t0 graceSec).fs t0 graceSec =
      ⟨0, [Msg.noProcess], fs, []⟩ := by
  have h1 : handleKill o fs t0 graceSec = ⟨0, [Msg.noProcess], fs, []⟩ := by
    simp [handleKill, h]
  refine ⟨h1, ?_⟩
  rw [h1]
  exact h1

/-- Witness for C7 on an absent record. -/
theorem claim_C7_witness :
    handleKill oracleGone ⟨none, none⟩ 0 none = ⟨0, [Msg.noProcess], ⟨none, none⟩, []⟩ ∧
    handleKill oracleGone (handleKill oracleGone ⟨none, none⟩ 0 none).fs 0 none =
      ⟨0, [Msg.noProcess], ⟨none, none⟩, []⟩ :=
  claim_C7 oracleGone ⟨none, none⟩ 0 none rfl

/-! ### C8: status is read-only and its exit code tracks verification -/

/-- C8: `status` never mutates the registry entry; it exits 0 exactly when
the record verifies, 1 otherwise (absent, stale or dead), and distinguishes
the stale case in its message only. -/
theorem claim_C8 (o : Oracle) (fs : FileState) (t0 : Nat) :
    (handleStatus o fs t0).fs = fs ∧
    ((handleStatus o fs t0).exit = 0 ∨ (handleStatus o fs t0).exit = 1) ∧
    ((handleStatus o fs t0).exit = 0 ↔
      ∃ pid mt, readPid fs.content = some pid ∧ fs.mtimeMs = some mt ∧
        isSameProcessInstance o pid mt = true) ∧
    (∀ pid mt, readPid fs.content = some pid → fs.mtimeMs = some mt →
      isSameProcessInstance o pid mt = false → isProcessAlive o pid t0 = true →
      (handleStatus o fs t0).msgs = [Msg.stoppedDifferent] ∧
      (handleStatus o fs t0).exit = 1) := by
  cases hp : readPid fs.content with
  | none =>
    have hres : handleStatus o fs t0 = ⟨1, [Msg.notTracked], fs⟩ := by
      simp [handleStatus, hp]
    rw [hres]
    refine ⟨rfl, Or.inr rfl, iff_of_false (by simp) ?_, ?_⟩
    · rintro ⟨x, y, hx, hy, hs2⟩
      exact Option.noConfusion hx
    · intro x y hx hy hs2 hal2
      exact Option.noConfusion hx
  | some pid =>
    cases hm : fs.mtimeMs with
    | none =>
      cases hal : isProcessAlive o pid t0 with
      | false =>
        have hres : handleStatus o fs t0 = ⟨1, [Msg.stopped], fs⟩ := by
          simp [handleStatus, hp, hm, hal]
        rw [hres]
        refine ⟨rfl, Or.inr rfl, iff_of_false (by simp) ?_, ?_⟩
        · rintro ⟨x, y, hx, hy, hs2⟩
          exact Option.noConfusion hy
        · intro x y hx hy hs2 hal2
          exact Option.noConfusion hy
      | true =>
        have hres : handleStatus o fs t0 = ⟨1, [Msg.stoppedDifferent], fs⟩ := by
          simp [handleStatus, hp, hm, hal]
        rw [hres]
        refine ⟨rfl, Or.inr rfl, iff_of_false (by simp) ?_, ?_⟩
        · rintro ⟨x, y, hx, hy, hs2⟩
          exact Option.noConfusion hy
        · intro x y hx hy hs2 hal2
          exact Option.noConfusion hy
    | some mt =>
      cases hsame : isSameProcessInstance o pid mt with
      | true =>
        have hres : handleStatus o fs t0 = ⟨0, [Msg.running], fs⟩ := by
          simp [handleStatus, hp, hm, hsame]
        rw [hres]
        refine ⟨rfl, Or.inl rfl, iff_of_true rfl ⟨pid, mt, rfl, rfl, hsame⟩, ?_⟩
        intro x y hx hy hs2 hal2
        rw [← Option.some.inj hx, ← Option.some.inj hy] at hs2
        rw [hsame] at hs2
        exact Bool.noConfusion hs2
      | false =>
        cases hal : isProcessAlive o pid t0 with
        | false =>
          have hres : handleStatus o fs t0 = ⟨1, [Msg.stopped], fs⟩ := by
            simp [handleStatus, hp, hm, hsame, hal]
          rw [hres]
          refine ⟨rfl, Or.inr rfl, iff_of_false (by simp) ?_, ?_⟩
          · rintro ⟨x, y, hx, hy, hs2⟩
            rw [← Option.some.inj hx, ← Option.some.inj hy] at hs2
            rw [hsame] at hs2
            exact Bool.noConfusion hs2
          · intro x y hx hy hs2 hal2
            rw [← Option.some.inj hx] at hal2
            rw [hal] at hal2
            exact Bool.noConfusion hal2
        | true =>
          have hres : handleStatus o fs t0 = ⟨1, [Msg.stoppedDifferent], fs⟩ := by
            simp [handleStatus, hp, hm, hsame, hal]
          rw [hres]
          refine ⟨rfl, Or.inr rfl, iff_of_false (by simp) ?_,
            fun x y hx hy hs2 hal2 => ⟨rfl, rfl⟩⟩
          rintro ⟨x, y, hx, hy, hs2⟩
          rw [← Option.some.inj hx, ← Option.some.inj hy] at hs2
          rw [hsame] at hs2
          exact Bool.noConfusion hs2

/-- Witness for C8 on a verified record. -/
theorem claim_C8_witness :
    (handleStatus (oracleLive 0) ⟨some "42", some 0⟩ 0).fs = ⟨some "42", some 0⟩ ∧
    ((handleStatus (oracleLive 0) ⟨some "42", some 0⟩ 0).exit = 0 ∨
      (handleStatus (oracleLive 0) ⟨some "42", some 0⟩ 0).exit = 1) ∧
    ((handleStatus (oracleLive 0) ⟨some "42", some 0⟩ 0).exit = 0 ↔
      ∃ pid mt, readPid (FileState.mk (some "42") (some 0)).content = some pid ∧
        (FileState.mk (some "42") (some 0)).mtimeMs = some mt ∧
        isSameProcessInstance (oracleLive 0) pid mt = true) ∧
    (∀ pid mt, readPid (FileState.mk (some "42") (some 0)).content = some pid →
      (FileState.mk (some "42") (some 0)).mtimeMs = some mt →
      isSameProcessInstance (oracleLive 0) pid mt = false →
      isProcessAlive (oracleLive 0) pid 0 = true →
      (handleStatus (oracleLive 0) ⟨some "42", some 0⟩ 0).msgs = [Msg.stoppedDifferent] ∧
      (handleStatus (oracleLive 0) ⟨some "42", some 0⟩ 0).exit = 1) :=
  claim_C8 (oracleLive 0) ⟨some "42", some 0⟩ 0

/-! ### C10: the registry never yields a non-positive PID -/

/-- C10: whatever the file content (absent, unreadable, empty, non-numeric,
zero or negative included), `readPid` returns either `none` or a strictly
positive integer. -/
theorem claim_C10 (c : Option String) (p : Int) (h : readPid c = some p) : 0 < p := by
  cases c with
  | none => exact Option.noConfusion h
  | some str =>
    simp only [readPid] at h
    cases hpi : parseIntJs (String.mk (trimChars str.data)) with
    | none => simp [hpi] at h
    | some q =>
      by_cases hq : q ≤ 0
      · simp [hpi, hq] at h
      · simp [hpi, hq] at h
        omega

/-- Witness for C10 on content `"42"`. -/
theorem claim_C10_witness : readPid (some "42") = some 42 ∧ (0 : Int) < 42 :=
  ⟨by decide, claim_C10 (some "42") 42 (by decide)⟩

/-! ### Properties of the wait-for-exit polling loop -/

/-- With no timeout and a process alive at every poll point, the wait loop
never decides: the code waits indefinitely. -/
theorem waitExitLoop_none (a : Nat → Bool) (t0 : Nat) :
    ∀ fuel now, (∀ k, a (now + 500 * k) = true) →
      waitExitLoop a t0 none fuel now = none := by
  intro fuel
  induction fuel with
  | zero => intro now _; rfl
  | succ n ih =>
    intro now hal
    have h0 : a now = true := by simpa using hal 0
    simp [waitExitLoop, h0]
    exact ih (now + 500) (fun k => by
      rw [show now + 500 + 500 * k = now + 500 * (k + 1) by ring]
      exact hal (k + 1))

/-- If the wait loop reports success, some poll observed the process dead. -/
theorem waitExitLoop_zero_exists (a : Nat → Bool) (t0 : Nat) (tm : Option Nat) :
    ∀ fuel now, waitExitLoop a t0 tm fuel now = some 0 →
      ∃ k, a (now + 500 * k) = false := by
  intro fuel
  induction fuel with
  | zero => intro now h; exact Option.noConfusion h
  | succ n ih =>
    intro now h
    cases ha : a now with
    | false => exact ⟨0, by simpa using ha⟩
    | true =>
      simp only [waitExitLoop, ha, if_true] at h
      split at h
      · simp at h
      · obtain ⟨k, hk⟩ := ih (now + 500) h
        refine ⟨k + 1, ?_⟩
        rw [show now + 500 * (k + 1) = now + 500 + 500 * k by ring]
        exact hk

/-- Conversely: if the process is observed alive at every poll before `k`
with the timeout never yet elapsed there, and poll `k` observes it dead,
then with adequate fuel the wait loop reports success. -/
theorem waitExitLoop_success (a : Nat → Bool) (t0 : Nat) (tm : Option Nat) :
    ∀ k fuel now,
      (∀ j, j < k → a (now + 500 * j) = true ∧
        (∀ TM, tm = some TM → now + 500 * j - t0 < TM)) →
      a (now + 500 * k) = false → k < fuel →
      waitExitLoop a t0 tm fuel now = some 0 := by
  intro k
  induction k with
  | zero =>
    intro fuel now _ hdead hfuel
    cases fuel with
    | zero => exact absurd hfuel (by omega)
    | succ f =>
      have h0 : a now = false := by simpa using hdead
      simp [waitExitLoop, h0]
  | succ kk ih =>
    intro fuel now h hdead hfuel
    cases fuel with
    | zero => exact absurd hfuel (by omega)
    | succ f =>
      obtain ⟨ha0, ht0⟩ := h 0 (by omega)
      have h0 : a now = true := by simpa using ha0
      have hrec := ih f (now + 500)
        (fun j hj => by
          have hh := h (j + 1) (by omega)
          constructor
          · rw [show now + 500 + 500 * j = now + 500 * (j + 1) by ring]
            exact hh.1
          · intro TM hTM
            have := hh.2 TM hTM
            omega)
        (by
          rw [show now + 500 + 500 * kk = now + 500 * (kk + 1) by ring]
          exact hdead)
        (by omega)
      simp [waitExitLoop, h0]
      split
      · rename_i hmatch
        cases tm with
        | none => simp at hmatch
        | some TM =>
          simp only [decide_eq_true_eq] at hmatch
          have hlt := ht0 TM rfl
          omega
      · exact hrec

/-- With a timeout, if the process is observed alive at every poll up to and
including the first one at which the timeout has elapsed, the wait loop
reports the timeout failure (nothing is assumed about liveness afterwards). -/
theorem waitExitLoop_timeout_poll (a : Nat → Bool) (t0 TM : Nat) :
    ∀ m fuel now, t0 ≤ now →
      (∀ j, j ≤ m → a (now + 500 * j) = true) →
      TM ≤ now + 500 * m - t0 →
      (∀ j, j < m → now + 500 * j - t0 < TM) →
      m < fuel →
      waitExitLoop a t0 (some TM) fuel now = some 1 := by
  intro m
  induction m with
  | zero =>
    intro fuel now hle hal hTM _ hfuel
    cases fuel with
    | zero => exact absurd hfuel (by omega)
    | succ f =>
      have h0 : a now = true := by simpa using hal 0 (by omega)
      have hcond : TM ≤ now - t0 := by omega
      simp [waitExitLoop, h0, hcond]
  | succ mm ih =>
    intro fuel now hle hal hTM hlt hfuel
    cases fuel with
    | zero => exact absurd hfuel (by omega)
    | succ f =>
      have h0 : a now = true := by simpa using hal 0 (by omega)
      have hnot : ¬ (TM ≤ now - t0) := by
        have := hlt 0 (by omega)
        omega
      have hrec := ih f (now + 500) (by omega)
        (fun j hj => by
          rw [show now + 500 + 500 * j = now + 500 * (j + 1) by ring]
          exact hal (j + 1) (by omega))
        (by omega)
        (fun j hj => by
          have := hlt (j + 1) (by omega)
          omega)
        (by omega)
      simp [waitExitLoop, h0, hnot]
      exact hrec

/-- An OS in which the probed process is alive before 500 ms of model time
and dead from then on (used by the C9 witness's success case). -/
def oracleDies : Oracle :=
  ⟨fun _ t => decide (t < 500), fun _ => none⟩

/-! ### C9 (amended): wait-for-exit behaviour -/

/-- C9 (amended): with no record, `wait` fails immediately; it consults
liveness only (its result is invariant under the identity part of the
oracle); a recorded PID that is already not alive at the entry check fails
immediately with exit 1; otherwise the handler polls every 500 ms: success
(exit 0) is reported exactly on observing the process dead — it is reported
whenever some poll observes death before the timeout has elapsed at an
earlier poll, and only after some poll observes death; with a timeout of
`T` seconds and the process observed alive at every poll up to the first one
at or past `T * 1000` ms, the timeout failure (exit 1) is reported
regardless of what happens later; with no timeout and a process alive at
every poll it waits indefinitely. -/
theorem claim_C9 (o : Oracle) (fs : FileState) (t0 : Nat) (timeoutSec : Option Nat)
    (fuel : Nat) :
    (readPid fs.content = none → handleWait o fs t0 timeoutSec fuel = some 1) ∧
    (∀ o2 : Oracle, o2.aliveAt = o.aliveAt →
      handleWait o2 fs t0 timeoutSec fuel = handleWait o fs t0 timeoutSec fuel) ∧
    (∀ pid, readPid fs.content = some pid →
      (isProcessAlive o pid t0 = false → handleWait o fs t0 timeoutSec fuel = some 1) ∧
      (handleWait o fs t0 timeoutSec fuel = some 0 →
        ∃ k, isProcessAlive o pid (t0 + 500 * k) = false) ∧
      (∀ k, 1 ≤ k → k < fuel →
        (∀ j, j < k → isProcessAlive o pid (t0 + 500 * j) = true ∧
          (∀ T, timeoutSec = some T → 500 * j < T * 1000)) →
        isProcessAlive o pid (t0 + 500 * k) = false →
        handleWait o fs t0 timeoutSec fuel = some 0) ∧
      (∀ T, timeoutSec = some T → 2 * T < fuel →
        (∀ j, j ≤ 2 * T → isProcessAlive o pid (t0 + 500 * j) = true) →
        handleWait o fs t0 timeoutSec fuel = some 1) ∧
      (timeoutSec = none → (∀ j, isProcessAlive o pid (t0 + 500 * j) = true) →
        handleWait o fs t0 timeoutSec fuel = none)) := by
  refine ⟨?_, ?_, ?_⟩
  · intro h
    simp [handleWait, h]
  · intro o2 h2
    simp [handleWait, isProcessAlive, h2]
  · intro pid hp
    refine ⟨?_, ?_, ?_, ?_, ?_⟩
    · intro hdead
      simp [handleWait, hp, hdead]
    · intro hz
      cases hal : isProcessAlive o pid t0 with
      | false => simp [handleWait, hp, hal] at hz
      | true =>
        simp only [handleWait, hp, hal, Bool.not_true, Bool.false_eq_true,
          if_false] at hz
        exact waitExitLoop_zero_exists (fun t => isProcessAlive o pid t) t0
          (timeoutSec.map (fun s => s * 1000)) fuel t0 hz
    · intro k hk1 hkf h hdead
      have hal0 : isProcessAlive o pid t0 = true := by
        simpa using (h 0 (by omega)).1
      have hloop := waitExitLoop_success (fun t => isProcessAlive o pid t) t0
        (timeoutSec.map (fun s => s * 1000)) k fuel t0
        (fun j hj => by
          refine ⟨(h j hj).1, ?_⟩
          intro TM hTM
          cases timeoutSec with
          | none => exact Option.noConfusion hTM
          | some T =>
            have hT : T * 1000 = TM := by simpa using hTM
            have hjT := (h j hj).2 T rfl
            omega)
        hdead hkf
      simp [handleWait, hp, hal0]
      exact hloop
    · intro T hT hfuel hal
      subst hT
      have hal0 : isProcessAlive o pid t0 = true := by
        simpa using hal 0 (by omega)
      have hloop := waitExitLoop_timeout_poll (fun t => isProcessAlive o pid t) t0
        (T * 1000) (2 * T) fuel t0 (le_refl t0)
        (fun j hj => hal j hj)
        (by omega)
        (fun j hj => by omega)
        hfuel
      simp [handleWait, hp, hal0]
      exact hloop
    · intro hT hal
      subst hT
      have hal0 : isProcessAlive o pid t0 = true := by simpa using hal 0
      have hloop := waitExitLoop_none (fun t => isProcessAlive o pid t) t0 fuel t0 hal
      simp [handleWait, hp, hal0]
      exact hloop

/-- Witness for C9 (amended): a recorded PID dead at the entry check yields
exit 1, and a recorded PID alive at the first poll and dead at the second
yields exit 0. -/
theorem claim_C9_witness :
    handleWait oracleGone ⟨some "42", some 0⟩ 0 none 3 = some 1 ∧
    handleWait oracleDies ⟨some "42", some 0⟩ 0 none 3 = some 0 :=
  ⟨((claim_C9 oracleGone ⟨some "42", some 0⟩ 0 none 3).2.2 42 (by decide)).1 (by decide),
   ((claim_C9 oracleDies ⟨some "42", some 0⟩ 0 none 3).2.2 42 (by decide)).2.2.1 1
     (by omega) (by omega)
     (fun j hj => by
       have hj0 : j = 0 := by omega
       subst hj0
       exact ⟨by decide, fun T hT => Option.noConfusion hT⟩)
     (by decide)⟩

/-- Counterexample to C9 as stated: the record exists and its PID is not
alive, so per the claim the liveness poll would immediately observe the exit
and report success (exit 0), but the code's entry check reports failure
(exit 1). -/
theorem claim_C9_counterexample :
    readPid (some "42") = some 42 ∧
    isProcessAlive oracleGone 42 0 = false ∧
    handleWait oracleGone ⟨some "42", some 0⟩ 0 none 3 = some 1 ∧
    (some 1 : Option Nat) ≠ some 0 :=
  ⟨by decide, by decide, by decide, by decide⟩
